import Mathlib

/-!
Shallow embedding of the Pantone color picker's core
(`src/js/color-algorithms.js` and the matching step of `src/js/app.js`),
with theorems checking the specification's claims about it.

Strings are modelled as lists of characters; JS numbers are modelled as
real numbers (the color math is over floating point, embedded over `ℝ`);
`parseInt(-, 16)` on hex digits is modelled by its character-code
arithmetic.
-/

namespace ColorAlgorithms

/-- An RGB triple as produced by `hexToRgb`: each channel a base-16 parse
of two hex digits. -/
structure RGB where
  r : Nat
  g : Nat
  b : Nat
deriving DecidableEq, Repr

/-- A Lab triple `{L, a, b}` of JS numbers, embedded as reals. -/
@[ext]
structure Lab where
  L : ℝ
  a : ℝ
  b : ℝ

/-- The characters matched by the regex character class `[0-9A-F]` under
the `i` (case-insensitive) flag. -/
def hexDigits : List Char :=
  ['0', '1', '2', '3', '4', '5', '6', '7', '8', '9',
   'A', 'B', 'C', 'D', 'E', 'F',
   'a', 'b', 'c', 'd', 'e', 'f']

/-- `c` matches `[0-9A-F]` with the `i` flag. -/
def isHexDigit (c : Char) : Bool :=
  hexDigits.contains c

/-- The numeric value `parseInt` assigns to a hex digit, from its
character code (codes 48-57 are `0`-`9`, 65-70 are `A`-`F`, 97-102 are
`a`-`f`). -/
def hexDigitVal (c : Char) : Nat :=
  if 97 ≤ c.toNat then c.toNat - 87
  else if 65 ≤ c.toNat then c.toNat - 55
  else c.toNat - 48

/-- `parseInt(s, 16)` on a two-hex-digit substring. -/
def parseHexPair (c1 c2 : Char) : Nat :=
  16 * hexDigitVal c1 + hexDigitVal c2

/-- `hex.replace(/^#/, '')`: drops a single leading `#` if present. -/
def stripHash : List Char → List Char
  | '#' :: cs => cs
  | cs => cs

/-- The shorthand expansion step of `hexToRgb`:
`hex.split('').map(char => char + char).join('')` when the length is 3. -/
def expandShorthand (cs : List Char) : List Char :=
  if cs.length = 3 then (cs.map (fun c => [c, c])).flatten else cs

/-- The validation regex `/^[0-9A-F]{6}$/i` of `hexToRgb`. -/
def validSix (cs : List Char) : Bool :=
  cs.length == 6 && cs.all isHexDigit

/-- `hexToRgb` from `color-algorithms.js`: strip `#`, expand a length-3
shorthand, validate against `/^[0-9A-F]{6}$/i` (returning `none` for the
source's `null` on failure), then parse the three 2-digit pairs. -/
def hexToRgb (s : List Char) : Option RGB :=
  let hex := expandShorthand (stripHash s)
  if validSix hex then
    match hex with
    | [c1, c2, c3, c4, c5, c6] =>
        some ⟨parseHexPair c1 c2, parseHexPair c3 c4, parseHexPair c5 c6⟩
    | _ => none
  else none

/-- `isValidHex` from `color-algorithms.js`: strip `#`, then test
`/^[0-9A-F]{3}$|^[0-9A-F]{6}$/i`. -/
def isValidHex (s : List Char) : Bool :=
  let hex := stripHash s
  (hex.length == 3 && hex.all isHexDigit) || (hex.length == 6 && hex.all isHexDigit)

/-- The inner `toHex` of `rgbToHex`: clamp to [0,255], round, render in
base 16 and zero-pad to two characters.  The callers of interest pass
natural channel values, so rounding is the identity and only the upper
clamp can act; `Nat.toDigits` renders with the same lowercase digits as
JS `toString(16)`. -/
def toHexChannel (value : Nat) : List Char :=
  let hex := Nat.toDigits 16 (min value 255)
  if hex.length = 1 then '0' :: hex else hex

/-- `rgbToHex` from `color-algorithms.js` on integral channels:
`'#' + toHex(r) + toHex(g) + toHex(b)`. -/
def rgbToHex (r g b : Nat) : List Char :=
  '#' :: (toHexChannel r ++ toHexChannel g ++ toHexChannel b)

end ColorAlgorithms

namespace JS

/-- JS `Math.atan2(y, x)`: the argument of the complex number `x + y*i`,
in `(-π, π]`, with `atan2 0 0 = 0`. -/
noncomputable def atan2 (y x : ℝ) : ℝ :=
  Complex.arg ⟨x, y⟩

/-- JS truncation toward zero (the integer part used by the `%`
operator). -/
noncomputable def trunc (r : ℝ) : ℤ :=
  if 0 ≤ r then ⌊r⌋ else ⌈r⌉

/-- The JS remainder operator `x % y`: `x - y * trunc (x / y)`. -/
noncomputable def fmod (x y : ℝ) : ℝ :=
  x - y * (trunc (x / y) : ℝ)

end JS

namespace ColorAlgorithms

/-- The inner `toLinear` closure of `rgbToLab`: inverse sRGB gamma. -/
noncomputable def toLinear (value : ℝ) : ℝ :=
  if value > 0.04045 then ((value + 0.055) / 1.055) ^ (2.4 : ℝ) else value / 12.92

/-- The inner `transform` closure of `rgbToLab`: the Lab nonlinearity. -/
noncomputable def labTransform (value : ℝ) : ℝ :=
  if value > 0.008856 then value ^ ((1 : ℝ) / 3) else 7.787 * value + 16 / 116

/-- `rgbToLab` from `color-algorithms.js` (D65 illuminant). -/
noncomputable def rgbToLab (r g b : ℝ) : Lab :=
  let r1 := r / 255
  let g1 := g / 255
  let b1 := b / 255
  let rl := toLinear r1
  let gl := toLinear g1
  let bl := toLinear b1
  let x := rl * 0.4124564 + gl * 0.3575761 + bl * 0.1804375
  let y := rl * 0.2126729 + gl * 0.7151522 + bl * 0.0721750
  let z := rl * 0.0193339 + gl * 0.1191920 + bl * 0.9503041
  let x1 := (x * 100) / 95.047
  let y1 := (y * 100) / 100.000
  let z1 := (z * 100) / 108.883
  let x2 := labTransform x1
  let y2 := labTransform y1
  let z2 := labTransform z1
  ⟨116 * y2 - 16, 500 * (x2 - y2), 200 * (y2 - z2)⟩

/-- `hexToLab` from `color-algorithms.js`: `hexToRgb` then `rgbToLab`,
propagating the invalid signal. -/
noncomputable def hexToLab (s : List Char) : Option Lab :=
  match hexToRgb s with
  | none => none
  | some rgb => some (rgbToLab (rgb.r : ℝ) (rgb.g : ℝ) (rgb.b : ℝ))

/-- `deltaE76` from `color-algorithms.js`: Euclidean distance in Lab. -/
noncomputable def deltaE76 (lab1 lab2 : Lab) : ℝ :=
  let dL := lab1.L - lab2.L
  let da := lab1.a - lab2.a
  let db := lab1.b - lab2.b
  Real.sqrt (dL * dL + da * da + db * db)

/-! The intermediate quantities of `deltaE2000`, named after the source's
local variables, each as a function of the two input Lab triples. -/

/-- The weight `kL = 1`. -/
def kL : ℝ := 1

/-- The weight `kC = 1`. -/
def kC : ℝ := 1

/-- The weight `kH = 1`. -/
def kH : ℝ := 1

/-- `C1 = Math.sqrt(lab1.a * lab1.a + lab1.b * lab1.b)` (and `C2`
likewise): the chroma of one Lab triple. -/
noncomputable def chroma (lab : Lab) : ℝ :=
  Real.sqrt (lab.a * lab.a + lab.b * lab.b)

/-- `Cab = (C1 + C2) / 2`. -/
noncomputable def Cab (lab1 lab2 : Lab) : ℝ :=
  (chroma lab1 + chroma lab2) / 2

/-- `G = 0.5 * (1 - Math.sqrt(Cab^7 / (Cab^7 + 25^7)))`. -/
noncomputable def G (lab1 lab2 : Lab) : ℝ :=
  0.5 * (1 - Real.sqrt (Cab lab1 lab2 ^ 7 / (Cab lab1 lab2 ^ 7 + 25 ^ 7)))

/-- `a1prime = (1 + G) * lab1.a`. -/
noncomputable def a1prime (lab1 lab2 : Lab) : ℝ :=
  (1 + G lab1 lab2) * lab1.a

/-- `a2prime = (1 + G) * lab2.a`. -/
noncomputable def a2prime (lab1 lab2 : Lab) : ℝ :=
  (1 + G lab1 lab2) * lab2.a

/-- `C1prime = Math.sqrt(a1prime * a1prime + lab1.b * lab1.b)`. -/
noncomputable def C1prime (lab1 lab2 : Lab) : ℝ :=
  Real.sqrt (a1prime lab1 lab2 * a1prime lab1 lab2 + lab1.b * lab1.b)

/-- `C2prime = Math.sqrt(a2prime * a2prime + lab2.b * lab2.b)`. -/
noncomputable def C2prime (lab1 lab2 : Lab) : ℝ :=
  Real.sqrt (a2prime lab1 lab2 * a2prime lab1 lab2 + lab2.b * lab2.b)

/-- `h1prime = (Math.atan2(lab1.b, a1prime) * 180 / Math.PI + 360) % 360`. -/
noncomputable def h1prime (lab1 lab2 : Lab) : ℝ :=
  JS.fmod (JS.atan2 lab1.b (a1prime lab1 lab2) * 180 / Real.pi + 360) 360

/-- `h2prime = (Math.atan2(lab2.b, a2prime) * 180 / Math.PI + 360) % 360`. -/
noncomputable def h2prime (lab1 lab2 : Lab) : ℝ :=
  JS.fmod (JS.atan2 lab2.b (a2prime lab1 lab2) * 180 / Real.pi + 360) 360

/-- `deltaLprime = lab2.L - lab1.L`. -/
noncomputable def deltaLprime (lab1 lab2 : Lab) : ℝ :=
  lab2.L - lab1.L

/-- `deltaCprime = C2prime - C1prime`. -/
noncomputable def deltaCprime (lab1 lab2 : Lab) : ℝ :=
  C2prime lab1 lab2 - C1prime lab1 lab2

/-- The four-way branch computing `deltahprime`. -/
noncomputable def deltahprime (lab1 lab2 : Lab) : ℝ :=
  if C1prime lab1 lab2 * C2prime lab1 lab2 = 0 then 0
  else if |h2prime lab1 lab2 - h1prime lab1 lab2| ≤ 180 then
    h2prime lab1 lab2 - h1prime lab1 lab2
  else if h2prime lab1 lab2 - h1prime lab1 lab2 > 180 then
    h2prime lab1 lab2 - h1prime lab1 lab2 - 360
  else
    h2prime lab1 lab2 - h1prime lab1 lab2 + 360

/-- `deltaHprime = 2 * Math.sqrt(C1prime * C2prime) * Math.sin(deltahprime * Math.PI / 360)`. -/
noncomputable def deltaHprime (lab1 lab2 : Lab) : ℝ :=
  2 * Real.sqrt (C1prime lab1 lab2 * C2prime lab1 lab2) *
    Real.sin (deltahprime lab1 lab2 * Real.pi / 360)

/-- `Lbarprime = (lab1.L + lab2.L) / 2`. -/
noncomputable def Lbarprime (lab1 lab2 : Lab) : ℝ :=
  (lab1.L + lab2.L) / 2

/-- `Cbarprime = (C1prime + C2prime) / 2`. -/
noncomputable def Cbarprime (lab1 lab2 : Lab) : ℝ :=
  (C1prime lab1 lab2 + C2prime lab1 lab2) / 2

/-- The four-way branch computing `Hbarprime`. -/
noncomputable def Hbarprime (lab1 lab2 : Lab) : ℝ :=
  if C1prime lab1 lab2 * C2prime lab1 lab2 = 0 then
    h1prime lab1 lab2 + h2prime lab1 lab2
  else if |h1prime lab1 lab2 - h2prime lab1 lab2| ≤ 180 then
    (h1prime lab1 lab2 + h2prime lab1 lab2) / 2
  else if h1prime lab1 lab2 + h2prime lab1 lab2 < 360 then
    (h1prime lab1 lab2 + h2prime lab1 lab2 + 360) / 2
  else
    (h1prime lab1 lab2 + h2prime lab1 lab2 - 360) / 2

/-- The hue-dependent factor `T`. -/
noncomputable def T (lab1 lab2 : Lab) : ℝ :=
  1 - 0.17 * Real.cos ((Hbarprime lab1 lab2 - 30) * Real.pi / 180)
    + 0.24 * Real.cos (2 * Hbarprime lab1 lab2 * Real.pi / 180)
    + 0.32 * Real.cos ((3 * Hbarprime lab1 lab2 + 6) * Real.pi / 180)
    - 0.20 * Real.cos ((4 * Hbarprime lab1 lab2 - 63) * Real.pi / 180)

/-- `SL = 1 + (0.015 * (Lbarprime - 50)^2) / Math.sqrt(20 + (Lbarprime - 50)^2)`. -/
noncomputable def SL (lab1 lab2 : Lab) : ℝ :=
  1 + 0.015 * (Lbarprime lab1 lab2 - 50) ^ 2 /
    Real.sqrt (20 + (Lbarprime lab1 lab2 - 50) ^ 2)

/-- `SC = 1 + 0.045 * Cbarprime`. -/
noncomputable def SC (lab1 lab2 : Lab) : ℝ :=
  1 + 0.045 * Cbarprime lab1 lab2

/-- `SH = 1 + 0.015 * Cbarprime * T`. -/
noncomputable def SH (lab1 lab2 : Lab) : ℝ :=
  1 + 0.015 * Cbarprime lab1 lab2 * T lab1 lab2

/-- `deltaTheta = 30 * Math.exp(-((Hbarprime - 275) / 25)^2)`. -/
noncomputable def deltaTheta (lab1 lab2 : Lab) : ℝ :=
  30 * Real.exp (-(((Hbarprime lab1 lab2 - 275) / 25) ^ 2))

/-- `RC = 2 * Math.sqrt(Cbarprime^7 / (Cbarprime^7 + 25^7))`. -/
noncomputable def RC (lab1 lab2 : Lab) : ℝ :=
  2 * Real.sqrt (Cbarprime lab1 lab2 ^ 7 / (Cbarprime lab1 lab2 ^ 7 + 25 ^ 7))

/-- `RT = -RC * Math.sin(2 * deltaTheta * Math.PI / 180)`. -/
noncomputable def RT (lab1 lab2 : Lab) : ℝ :=
  -RC lab1 lab2 * Real.sin (2 * deltaTheta lab1 lab2 * Real.pi / 180)

/-- The argument of the final `Math.sqrt` of `deltaE2000`. -/
noncomputable def deltaEArg (lab1 lab2 : Lab) : ℝ :=
  (deltaLprime lab1 lab2 / (kL * SL lab1 lab2)) ^ 2 +
  (deltaCprime lab1 lab2 / (kC * SC lab1 lab2)) ^ 2 +
  (deltaHprime lab1 lab2 / (kH * SH lab1 lab2)) ^ 2 +
  RT lab1 lab2 * (deltaCprime lab1 lab2 / (kC * SC lab1 lab2)) *
    (deltaHprime lab1 lab2 / (kH * SH lab1 lab2))

/-- `deltaE2000` from `color-algorithms.js` (CIEDE2000). -/
noncomputable def deltaE2000 (lab1 lab2 : Lab) : ℝ :=
  Real.sqrt (deltaEArg lab1 lab2)

/-- The `{rating, description, class}` record returned by
`getDeltaEInterpretation`; the `class` field is renamed `cls` (`class` is
a Lean keyword). -/
structure Interpretation where
  rating : String
  description : String
  cls : String
deriving DecidableEq, Repr

/-- `getDeltaEInterpretation` from `color-algorithms.js`. -/
noncomputable def getDeltaEInterpretation (deltaE : ℝ) : Interpretation :=
  if deltaE < 1.0 then ⟨"Perfect", "Not perceptible by human eyes", "perfect"⟩
  else if deltaE < 2.0 then ⟨"Excellent", "Perceptible through close observation", "excellent"⟩
  else if deltaE < 10.0 then ⟨"Good", "Perceptible at a glance", "good"⟩
  else if deltaE < 50.0 then ⟨"Fair", "Colors are more similar than opposite", "fair"⟩
  else ⟨"Poor", "Colors are significantly different", "poor"⟩

/-- A record of the reference palette, as consumed by `findMatches`:
`{name, code, rgb, hex, lab}`. -/
structure ReferenceColor where
  name : String
  code : String
  hex : List Char
  rgb : RGB
  lab : Lab

/-- The `{...pantone, deltaE, match}` record built by the map step of
`findMatches`; the spread is modelled by carrying the whole reference
record, and the `match` field is renamed `matchPct` (`match` is a Lean
keyword). -/
structure MatchResult where
  color : ReferenceColor
  deltaE : ℝ
  matchPct : ℝ

/-- The body of the `map` in `findMatches`: attach
`deltaE = deltaE76(inputLab, pantone.lab)` and
`match = ((100 - Math.min(distance, 100)) / 100) * 100`. -/
noncomputable def augmentColor (inputLab : Lab) (pantone : ReferenceColor) : MatchResult :=
  let distance := deltaE76 inputLab pantone.lab
  ⟨pantone, distance, (100 - min distance 100) / 100 * 100⟩

/-- The comparator `(a, b) => a.deltaE - b.deltaE` of `findMatches`, as
the `≤` test it implements for a (stable) ascending sort. -/
noncomputable def matchLE (a b : MatchResult) : Bool :=
  decide (a.deltaE ≤ b.deltaE)

/-- A fixture palette entry used to exercise the matcher's guarantees at
a concrete input. -/
def sampleColor : ReferenceColor :=
  ⟨"sample", "0000", [], ⟨0, 0, 0⟩, ⟨0, 0, 0⟩⟩

/-- `MAX_RESULTS = 10` from `app.js`. -/
def MAX_RESULTS : Nat := 10

/-- The matching step of `findMatches` in `app.js`: map each palette
entry to an augmented record, sort ascending by `deltaE` (JS
`Array.prototype.sort` is stable, modelled by `List.mergeSort`), and
truncate with `slice(0, MAX_RESULTS)`. -/
noncomputable def findMatches (inputLab : Lab) (pantoneColors : List ReferenceColor) :
    List MatchResult :=
  (((pantoneColors.map (augmentColor inputLab)).mergeSort matchLE).take MAX_RESULTS)

end ColorAlgorithms

namespace SpecModel

/-- Modelled from the spec: the "case/prefix-normalized form" of a valid
hex string — `#` followed by the same six hex digits (after shorthand
expansion) in lowercase. -/
def normalizeHex (s : List Char) : List Char :=
  '#' :: (ColorAlgorithms.expandShorthand (ColorAlgorithms.stripHash s)).map Char.toLower

open ColorAlgorithms (Lab)

/-- The spec's inverse sRGB gamma: "for each channel v, if v > 0.04045
then ((v+0.055)/1.055)^2.4 else v/12.92". -/
noncomputable def invGamma (v : ℝ) : ℝ :=
  if v > 0.04045 then ((v + 0.055) / 1.055) ^ (2.4 : ℝ) else v / 12.92

/-- The spec's Lab nonlinearity: "if value > 0.008856 then cube-root,
else 7.787·value + 16/116". -/
noncomputable def labNonlin (v : ℝ) : ℝ :=
  if v > 0.008856 then v ^ ((1 : ℝ) / 3) else 7.787 * v + 16 / 116

/-- The spec's `rgbToLab` reference pipeline, step by step as written:
normalize by 255, inverse gamma, the D65 matrix (coefficients leading),
divide by the reference white then multiply by 100, the nonlinearity,
and the final `L`, `a`, `b` emission. -/
noncomputable def rgbToLab (r g b : ℝ) : Lab :=
  let rn := r / 255
  let gn := g / 255
  let bn := b / 255
  let R := invGamma rn
  let Gc := invGamma gn
  let B := invGamma bn
  let X := 0.4124564 * R + 0.3575761 * Gc + 0.1804375 * B
  let Y := 0.2126729 * R + 0.7151522 * Gc + 0.0721750 * B
  let Z := 0.0193339 * R + 0.1191920 * Gc + 0.9503041 * B
  let Xw := X / 95.047 * 100
  let Yw := Y / 100.0 * 100
  let Zw := Z / 108.883 * 100
  let Xp := labNonlin Xw
  let Yp := labNonlin Yw
  let Zp := labNonlin Zw
  ⟨116 * Yp - 16, 500 * (Xp - Yp), 200 * (Yp - Zp)⟩

/-! The spec's 13 CIEDE2000 steps, with kL = kC = kH = 1.  Quantities are
written as the spec states them: squares as `^ 2`, the hue angles
"normalized into [0,360)" by an explicit conditional adjustment. -/

/-- Step 1: chroma `C = √(a² + b²)`. -/
noncomputable def specChroma (lab : Lab) : ℝ :=
  Real.sqrt (lab.a ^ 2 + lab.b ^ 2)

/-- Step 1: mean chroma `Cab = (C1 + C2)/2`. -/
noncomputable def specCab (lab1 lab2 : Lab) : ℝ :=
  (specChroma lab1 + specChroma lab2) / 2

/-- Step 2: `G = 0.5·(1 − √(Cab⁷/(Cab⁷+25⁷)))`. -/
noncomputable def specG (lab1 lab2 : Lab) : ℝ :=
  0.5 * (1 - Real.sqrt (specCab lab1 lab2 ^ 7 / (specCab lab1 lab2 ^ 7 + 25 ^ 7)))

/-- Step 3: `a1′ = (1+G)·a1`. -/
noncomputable def specA1prime (lab1 lab2 : Lab) : ℝ :=
  (1 + specG lab1 lab2) * lab1.a

/-- Step 3: `a2′ = (1+G)·a2`. -/
noncomputable def specA2prime (lab1 lab2 : Lab) : ℝ :=
  (1 + specG lab1 lab2) * lab2.a

/-- Step 3: `C1′` recomputed from `a′`, `b`. -/
noncomputable def specC1prime (lab1 lab2 : Lab) : ℝ :=
  Real.sqrt (specA1prime lab1 lab2 ^ 2 + lab1.b ^ 2)

/-- Step 3: `C2′` recomputed from `a′`, `b`. -/
noncomputable def specC2prime (lab1 lab2 : Lab) : ℝ :=
  Real.sqrt (specA2prime lab1 lab2 ^ 2 + lab2.b ^ 2)

/-- Step 4's normalization of a degree angle in `(-180, 180]` into
`[0, 360)`: add 360 to a negative angle. -/
noncomputable def normDeg (d : ℝ) : ℝ :=
  if d < 0 then d + 360 else d

/-- Step 4: `h1′ = atan2(b1, a1′)` in degrees, normalized into `[0,360)`. -/
noncomputable def specH1prime (lab1 lab2 : Lab) : ℝ :=
  normDeg (JS.atan2 lab1.b (specA1prime lab1 lab2) * 180 / Real.pi)

/-- Step 4: `h2′ = atan2(b2, a2′)` in degrees, normalized into `[0,360)`. -/
noncomputable def specH2prime (lab1 lab2 : Lab) : ℝ :=
  normDeg (JS.atan2 lab2.b (specA2prime lab1 lab2) * 180 / Real.pi)

/-- Step 5: `ΔL′ = L2 − L1`. -/
noncomputable def specDeltaLprime (lab1 lab2 : Lab) : ℝ :=
  lab2.L - lab1.L

/-- Step 5: `ΔC′ = C2′ − C1′`. -/
noncomputable def specDeltaCprime (lab1 lab2 : Lab) : ℝ :=
  specC2prime lab1 lab2 - specC1prime lab1 lab2

/-- Step 6: `Δh′`: 0 if either chroma-prime is 0; else `h2′ − h1′`
adjusted by ±360 into `[-180, 180]`. -/
noncomputable def specDeltahprime (lab1 lab2 : Lab) : ℝ :=
  if specC1prime lab1 lab2 = 0 ∨ specC2prime lab1 lab2 = 0 then 0
  else if |specH2prime lab1 lab2 - specH1prime lab1 lab2| ≤ 180 then
    specH2prime lab1 lab2 - specH1prime lab1 lab2
  else if specH2prime lab1 lab2 - specH1prime lab1 lab2 > 180 then
    specH2prime lab1 lab2 - specH1prime lab1 lab2 - 360
  else
    specH2prime lab1 lab2 - specH1prime lab1 lab2 + 360

/-- Step 7: `ΔH′ = 2·√(C1′·C2′)·sin(Δh′·π/360)`. -/
noncomputable def specDeltaHprime (lab1 lab2 : Lab) : ℝ :=
  2 * Real.sqrt (specC1prime lab1 lab2 * specC2prime lab1 lab2) *
    Real.sin (specDeltahprime lab1 lab2 * Real.pi / 360)

/-- Step 8: mean lightness `L̄′ = (L1 + L2)/2`. -/
noncomputable def specLbarprime (lab1 lab2 : Lab) : ℝ :=
  (lab1.L + lab2.L) / 2

/-- Step 8: mean chroma `C̄′ = (C1′ + C2′)/2`. -/
noncomputable def specCbarprime (lab1 lab2 : Lab) : ℝ :=
  (specC1prime lab1 lab2 + specC2prime lab1 lab2) / 2

/-- Step 9: mean hue `H̄′`: the sum of the two hues when either
chroma-prime is zero; otherwise the shorter-arc average. -/
noncomputable def specHbarprime (lab1 lab2 : Lab) : ℝ :=
  if specC1prime lab1 lab2 = 0 ∨ specC2prime lab1 lab2 = 0 then
    specH1prime lab1 lab2 + specH2prime lab1 lab2
  else if |specH1prime lab1 lab2 - specH2prime lab1 lab2| ≤ 180 then
    (specH1prime lab1 lab2 + specH2prime lab1 lab2) / 2
  else if specH1prime lab1 lab2 + specH2prime lab1 lab2 < 360 then
    (specH1prime lab1 lab2 + specH2prime lab1 lab2 + 360) / 2
  else
    (specH1prime lab1 lab2 + specH2prime lab1 lab2 - 360) / 2

/-- Step 10: the factor `T`. -/
noncomputable def specT (lab1 lab2 : Lab) : ℝ :=
  1 - 0.17 * Real.cos ((specHbarprime lab1 lab2 - 30) * Real.pi / 180)
    + 0.24 * Real.cos (2 * specHbarprime lab1 lab2 * Real.pi / 180)
    + 0.32 * Real.cos ((3 * specHbarprime lab1 lab2 + 6) * Real.pi / 180)
    - 0.20 * Real.cos ((4 * specHbarprime lab1 lab2 - 63) * Real.pi / 180)

/-- Step 11: `SL`. -/
noncomputable def specSL (lab1 lab2 : Lab) : ℝ :=
  1 + 0.015 * (specLbarprime lab1 lab2 - 50) ^ 2 /
    Real.sqrt (20 + (specLbarprime lab1 lab2 - 50) ^ 2)

/-- Step 11: `SC = 1 + 0.045·C̄′`. -/
noncomputable def specSC (lab1 lab2 : Lab) : ℝ :=
  1 + 0.045 * specCbarprime lab1 lab2

/-- Step 11: `SH = 1 + 0.015·C̄′·T`. -/
noncomputable def specSH (lab1 lab2 : Lab) : ℝ :=
  1 + 0.015 * specCbarprime lab1 lab2 * specT lab1 lab2

/-- Step 12: `ΔΘ = 30·exp(−((H̄′−275)/25)²)`. -/
noncomputable def specDeltaTheta (lab1 lab2 : Lab) : ℝ :=
  30 * Real.exp (-(((specHbarprime lab1 lab2 - 275) / 25) ^ 2))

/-- Step 12: `RC = 2·√(C̄′⁷/(C̄′⁷+25⁷))`. -/
noncomputable def specRC (lab1 lab2 : Lab) : ℝ :=
  2 * Real.sqrt (specCbarprime lab1 lab2 ^ 7 / (specCbarprime lab1 lab2 ^ 7 + 25 ^ 7))

/-- Step 12: `RT = −RC·sin(2ΔΘ)` (degrees to radians). -/
noncomputable def specRT (lab1 lab2 : Lab) : ℝ :=
  -specRC lab1 lab2 * Real.sin (2 * specDeltaTheta lab1 lab2 * Real.pi / 180)

/-- Step 13: the final CIEDE2000 value with `kL = kC = kH = 1`. -/
noncomputable def deltaE2000 (lab1 lab2 : Lab) : ℝ :=
  Real.sqrt
    ((specDeltaLprime lab1 lab2 / (1 * specSL lab1 lab2)) ^ 2 +
     (specDeltaCprime lab1 lab2 / (1 * specSC lab1 lab2)) ^ 2 +
     (specDeltaHprime lab1 lab2 / (1 * specSH lab1 lab2)) ^ 2 +
     specRT lab1 lab2 * (specDeltaCprime lab1 lab2 / (1 * specSC lab1 lab2)) *
       (specDeltaHprime lab1 lab2 / (1 * specSH lab1 lab2)))

end SpecModel

/-! ### Theorems -/

namespace ColorAlgorithms

theorem isHexDigit_mem {c : Char} (h : isHexDigit c = true) : c ∈ hexDigits := by
  simpa [isHexDigit, List.elem_iff] using h

theorem hexDigitVal_le_of_mem : ∀ c ∈ hexDigits, hexDigitVal c ≤ 15 := by decide

theorem toHexChannel_parseHexPair :
    ∀ c1 ∈ hexDigits, ∀ c2 ∈ hexDigits,
      toHexChannel (parseHexPair c1 c2) = [c1.toLower, c2.toLower] := by decide

theorem exists_six {l : List Char} (h : l.length = 6) :
    ∃ a b c d e f, l = [a, b, c, d, e, f] := by
  rcases l with _ | ⟨a, _ | ⟨b, _ | ⟨c, _ | ⟨d, _ | ⟨e, _ | ⟨f, rest⟩⟩⟩⟩⟩⟩ <;>
    simp_all

theorem parseHexPair_le {c1 c2 : Char} (h1 : isHexDigit c1 = true)
    (h2 : isHexDigit c2 = true) : parseHexPair c1 c2 ≤ 255 := by
  have v1 := hexDigitVal_le_of_mem c1 (isHexDigit_mem h1)
  have v2 := hexDigitVal_le_of_mem c2 (isHexDigit_mem h2)
  unfold parseHexPair
  omega

theorem expandShorthand_of_length_ne_three {cs : List Char} (h : cs.length ≠ 3) :
    expandShorthand cs = cs := by
  simp [expandShorthand, h]

theorem hexToRgb_eq_none_iff (s : List Char) :
    hexToRgb s = none ↔ validSix (expandShorthand (stripHash s)) = false := by
  by_cases hv : validSix (expandShorthand (stripHash s)) = true
  · obtain ⟨hl, -⟩ : (expandShorthand (stripHash s)).length = 6 ∧ _ := by
      simpa [validSix] using hv
    obtain ⟨a, b, c, d, e, f, heq⟩ := exists_six hl
    rw [heq] at hv
    simp [hexToRgb, heq, hv]
  · simp only [Bool.not_eq_true] at hv
    simp [hexToRgb, hv]

theorem isValidHex_eq_validSix (s : List Char) :
    isValidHex s = validSix (expandShorthand (stripHash s)) := by
  by_cases h3 : (stripHash s).length = 3
  · obtain ⟨a, b, c, heq⟩ := List.length_eq_three.mp h3
    simp only [isValidHex, validSix, expandShorthand, heq]
    simp [List.all]
  · rw [expandShorthand_of_length_ne_three h3]
    simp only [isValidHex, validSix]
    have h3f : ((stripHash s).length == 3) = false := by
      simpa using h3
    rw [h3f]
    simp

/-- C5: `hexToRgb` strips an optional `#`, expands a length-3 remainder
by digit duplication, returns `none` exactly when the result is not 6
hex digits, and on success parses each 2-digit pair in base 16, keeping
every channel in `[0, 255]`; `hexToRgb "#FF5733" = {r:255, g:87, b:51}`. -/
theorem hexToRgb_spec (s : List Char) :
    (hexToRgb s = none ↔ validSix (expandShorthand (stripHash s)) = false) ∧
    (∀ t : RGB, hexToRgb s = some t →
      ∃ c1 c2 c3 c4 c5 c6,
        expandShorthand (stripHash s) = [c1, c2, c3, c4, c5, c6] ∧
        t = ⟨parseHexPair c1 c2, parseHexPair c3 c4, parseHexPair c5 c6⟩ ∧
        t.r ≤ 255 ∧ t.g ≤ 255 ∧ t.b ≤ 255) ∧
    hexToRgb ("#FF5733".data) = some ⟨255, 87, 51⟩ := by
  refine ⟨hexToRgb_eq_none_iff s, ?_, by decide⟩
  intro t ht
  by_cases hv : validSix (expandShorthand (stripHash s)) = true
  · obtain ⟨hl, hall⟩ : (expandShorthand (stripHash s)).length = 6 ∧
        ∀ x ∈ expandShorthand (stripHash s), isHexDigit x = true := by
      simpa [validSix] using hv
    obtain ⟨a, b, c, d, e, f, heq⟩ := exists_six hl
    rw [heq] at hall
    simp [hexToRgb, hv, heq] at ht
    obtain ⟨-, ht⟩ := ht
    subst ht
    refine ⟨a, b, c, d, e, f, heq, rfl, ?_, ?_, ?_⟩
    · exact parseHexPair_le (hall a (by simp)) (hall b (by simp))
    · exact parseHexPair_le (hall c (by simp)) (hall d (by simp))
    · exact parseHexPair_le (hall e (by simp)) (hall f (by simp))
  · simp only [Bool.not_eq_true] at hv
    simp [hexToRgb, hv] at ht

/-- Witness for C5 at the concrete input `"#FF5733"`. -/
theorem hexToRgb_spec_witness :
    hexToRgb ("#FF5733".data) = some ⟨255, 87, 51⟩ ∧
    ∃ c1 c2 c3 c4 c5 c6,
      expandShorthand (stripHash ("#FF5733".data)) = [c1, c2, c3, c4, c5, c6] ∧
      (⟨255, 87, 51⟩ : RGB) = ⟨parseHexPair c1 c2, parseHexPair c3 c4, parseHexPair c5 c6⟩ ∧
      (255 : Nat) ≤ 255 ∧ (87 : Nat) ≤ 255 ∧ (51 : Nat) ≤ 255 :=
  ⟨by decide, (hexToRgb_spec ("#FF5733".data)).2.1 ⟨255, 87, 51⟩ (by decide)⟩

/-- C10: the validity predicate and the parser agree: `isValidHex`
returns `true` exactly when `hexToRgb` (equivalently `hexToLab`) returns
a non-null result. -/
theorem isValidHex_agrees_hexToRgb (s : List Char) :
    (isValidHex s = true ↔ hexToRgb s ≠ none) ∧
    (isValidHex s = true ↔ hexToLab s ≠ none) := by
  have hlab : hexToLab s = none ↔ hexToRgb s = none := by
    unfold hexToLab; cases hexToRgb s <;> simp
  have hkey : isValidHex s = true ↔ hexToRgb s ≠ none := by
    rw [isValidHex_eq_validSix, Ne, hexToRgb_eq_none_iff]
    simp
  exact ⟨hkey, hkey.trans (by rw [Ne, Ne, hlab])⟩

/-- C8: on any valid 6-digit hex string (optional `#`, any letter case),
`rgbToHex` applied to the channels of `hexToRgb` returns the
case/prefix-normalized form: `#` followed by the same six digits in
lowercase. -/
theorem roundTrip_hexToRgb_rgbToHex (s : List Char)
    (h : validSix (stripHash s) = true) :
    (hexToRgb s).map (fun t => rgbToHex t.r t.g t.b) = some (SpecModel.normalizeHex s) := by
  obtain ⟨hl, hall⟩ : (stripHash s).length = 6 ∧
      ∀ x ∈ stripHash s, isHexDigit x = true := by simpa [validSix] using h
  obtain ⟨a, b, c, d, e, f, heq⟩ := exists_six hl
  rw [heq] at hall
  have hexp : expandShorthand (stripHash s) = [a, b, c, d, e, f] := by
    rw [heq]; exact expandShorthand_of_length_ne_three (by simp)
  have hv : validSix (expandShorthand (stripHash s)) = true := by rw [hexp, ← heq]; exact h
  rw [hexp] at hv
  have hab := toHexChannel_parseHexPair a (isHexDigit_mem (hall a (by simp)))
    b (isHexDigit_mem (hall b (by simp)))
  have hcd := toHexChannel_parseHexPair c (isHexDigit_mem (hall c (by simp)))
    d (isHexDigit_mem (hall d (by simp)))
  have hef := toHexChannel_parseHexPair e (isHexDigit_mem (hall e (by simp)))
    f (isHexDigit_mem (hall f (by simp)))
  simp [hexToRgb, hv, hexp, rgbToHex, hab, hcd, hef, SpecModel.normalizeHex]

/-- Witness for C8 at the concrete input `"#FF5733"`. -/
theorem roundTrip_hexToRgb_rgbToHex_witness :
    validSix (stripHash ("#FF5733".data)) = true ∧
    (hexToRgb ("#FF5733".data)).map (fun t => rgbToHex t.r t.g t.b) =
      some (SpecModel.normalizeHex ("#FF5733".data)) :=
  ⟨by decide, roundTrip_hexToRgb_rgbToHex _ (by decide)⟩

/-- C4: the quality classifier evaluates its thresholds top-down with
first match winning: Perfect iff `d < 1`, Excellent iff `1 ≤ d < 2`,
Good iff `2 ≤ d < 10`, Fair iff `10 ≤ d < 50`, Poor iff `d ≥ 50`; in
particular 0.5, 1.5, 9.9, 49.9, 50.0 map to Perfect, Excellent, Good,
Fair, Poor. -/
theorem getDeltaEInterpretation_spec (d : ℝ) :
    ((getDeltaEInterpretation d).rating = "Perfect" ↔ d < 1.0) ∧
    ((getDeltaEInterpretation d).rating = "Excellent" ↔ 1.0 ≤ d ∧ d < 2.0) ∧
    ((getDeltaEInterpretation d).rating = "Good" ↔ 2.0 ≤ d ∧ d < 10.0) ∧
    ((getDeltaEInterpretation d).rating = "Fair" ↔ 10.0 ≤ d ∧ d < 50.0) ∧
    ((getDeltaEInterpretation d).rating = "Poor" ↔ 50.0 ≤ d) ∧
    (getDeltaEInterpretation 0.5).rating = "Perfect" ∧
    (getDeltaEInterpretation 1.5).rating = "Excellent" ∧
    (getDeltaEInterpretation 9.9).rating = "Good" ∧
    (getDeltaEInterpretation 49.9).rating = "Fair" ∧
    (getDeltaEInterpretation 50.0).rating = "Poor" := by
  refine ⟨?_, ?_, ?_, ?_, ?_, ?_, ?_, ?_, ?_, ?_⟩ <;>
    simp only [getDeltaEInterpretation] <;>
    split_ifs <;>
    first
      | rfl
      | linarith
      | (constructor <;> linarith)
      | (exact iff_of_true rfl (by first | linarith | (constructor <;> linarith)))
      | (exact iff_of_false (by decide) (by intro hc; (try obtain ⟨hc1, hc2⟩ := hc); linarith))

end ColorAlgorithms

namespace ColorAlgorithms

/-- The Lab triple viewed as a point of Euclidean 3-space. -/
noncomputable def toE (lab : Lab) : EuclideanSpace ℝ (Fin 3) :=
  ![lab.L, lab.a, lab.b]

theorem deltaE76_eq_dist (x y : Lab) : deltaE76 x y = dist (toE x) (toE y) := by
  rw [EuclideanSpace.dist_eq]
  simp only [deltaE76, toE, Fin.sum_univ_three, Real.dist_eq]
  rw [sq_abs, sq_abs, sq_abs]
  congr 1
  simp [Matrix.cons_val_zero, Matrix.cons_val_one]
  ring

theorem toE_inj {x y : Lab} (h : toE x = toE y) : x = y := by
  have h0 := congrFun h 0
  have h1 := congrFun h 1
  have h2 := congrFun h 2
  simp [toE] at h0 h1 h2
  exact Lab.ext h0 h1 h2

theorem deltahprime_self (x : Lab) : deltahprime x x = 0 := by
  by_cases h0 : C1prime x x * C2prime x x = 0
  · simp [deltahprime, h0]
  · have hh : h2prime x x = h1prime x x := rfl
    simp [deltahprime, h0, hh]

theorem deltaE2000_self (x : Lab) : deltaE2000 x x = 0 := by
  have hC : C2prime x x = C1prime x x := rfl
  have hdh := deltahprime_self x
  have hH : deltaHprime x x = 0 := by
    simp [deltaHprime, hdh]
  have hL : deltaLprime x x = 0 := sub_self _
  have hCp : deltaCprime x x = 0 := by simp [deltaCprime, hC]
  have harg : deltaEArg x x = 0 := by
    simp [deltaEArg, hH, hL, hCp]
  simp [deltaE2000, harg]

/-- C7: `deltaE76` is a metric: zero exactly on identical Lab triples
and satisfying the triangle inequality; additionally
`deltaE2000 x x = 0` for every Lab triple. -/
theorem deltaE76_metric (x y z : Lab) :
    (deltaE76 x y = 0 ↔ x = y) ∧
    deltaE76 x z ≤ deltaE76 x y + deltaE76 y z ∧
    deltaE2000 x x = 0 := by
  refine ⟨?_, ?_, deltaE2000_self x⟩
  · rw [deltaE76_eq_dist, dist_eq_zero]
    exact ⟨fun h => toE_inj h, fun h => by rw [h]⟩
  · rw [deltaE76_eq_dist, deltaE76_eq_dist, deltaE76_eq_dist]
    exact dist_triangle _ _ _

end ColorAlgorithms

namespace ColorAlgorithms

theorem Cab_comm (l1 l2 : Lab) : Cab l2 l1 = Cab l1 l2 := by
  unfold Cab; ring

theorem G_comm (l1 l2 : Lab) : G l2 l1 = G l1 l2 := by
  unfold G; rw [Cab_comm]

theorem a1prime_comm (l1 l2 : Lab) : a1prime l2 l1 = a2prime l1 l2 := by
  unfold a1prime a2prime; rw [G_comm]

theorem a2prime_comm (l1 l2 : Lab) : a2prime l2 l1 = a1prime l1 l2 := by
  unfold a1prime a2prime; rw [G_comm]

theorem C1prime_comm (l1 l2 : Lab) : C1prime l2 l1 = C2prime l1 l2 := by
  unfold C1prime C2prime; rw [a1prime_comm l1 l2]

theorem C2prime_comm (l1 l2 : Lab) : C2prime l2 l1 = C1prime l1 l2 := by
  unfold C1prime C2prime; rw [a2prime_comm l1 l2]

theorem h1prime_comm (l1 l2 : Lab) : h1prime l2 l1 = h2prime l1 l2 := by
  unfold h1prime h2prime; rw [a1prime_comm l1 l2]

theorem h2prime_comm (l1 l2 : Lab) : h2prime l2 l1 = h1prime l1 l2 := by
  unfold h1prime h2prime; rw [a2prime_comm l1 l2]

theorem deltaLprime_comm (l1 l2 : Lab) : deltaLprime l2 l1 = -deltaLprime l1 l2 := by
  unfold deltaLprime; ring

theorem deltaCprime_comm (l1 l2 : Lab) : deltaCprime l2 l1 = -deltaCprime l1 l2 := by
  unfold deltaCprime; rw [C1prime_comm l1 l2, C2prime_comm l1 l2]; ring

theorem deltahprime_comm (l1 l2 : Lab) : deltahprime l2 l1 = -deltahprime l1 l2 := by
  unfold deltahprime
  rw [C1prime_comm l1 l2, C2prime_comm l1 l2, h1prime_comm l1 l2, h2prime_comm l1 l2,
    mul_comm (C2prime l1 l2) (C1prime l1 l2),
    abs_sub_comm (h1prime l1 l2) (h2prime l1 l2)]
  by_cases h0 : C1prime l1 l2 * C2prime l1 l2 = 0
  · rw [if_pos h0, if_pos h0]; ring
  · rw [if_neg h0, if_neg h0]
    by_cases h1 : |h2prime l1 l2 - h1prime l1 l2| ≤ 180
    · rw [if_pos h1, if_pos h1]; ring
    · rw [if_neg h1, if_neg h1]
      rcases lt_abs.mp (not_le.mp h1) with h | h
      · rw [if_neg (by linarith), if_pos (by linarith)]; ring
      · rw [if_pos (by linarith), if_neg (by linarith)]; ring

theorem Lbarprime_comm (l1 l2 : Lab) : Lbarprime l2 l1 = Lbarprime l1 l2 := by
  unfold Lbarprime; ring

theorem Cbarprime_comm (l1 l2 : Lab) : Cbarprime l2 l1 = Cbarprime l1 l2 := by
  unfold Cbarprime; rw [C1prime_comm l1 l2, C2prime_comm l1 l2]; ring

theorem Hbarprime_comm (l1 l2 : Lab) : Hbarprime l2 l1 = Hbarprime l1 l2 := by
  unfold Hbarprime
  rw [C1prime_comm l1 l2, C2prime_comm l1 l2, h1prime_comm l1 l2, h2prime_comm l1 l2,
    mul_comm (C2prime l1 l2) (C1prime l1 l2),
    abs_sub_comm (h2prime l1 l2) (h1prime l1 l2),
    add_comm (h2prime l1 l2) (h1prime l1 l2)]

theorem deltaHprime_comm (l1 l2 : Lab) : deltaHprime l2 l1 = -deltaHprime l1 l2 := by
  unfold deltaHprime
  rw [C1prime_comm l1 l2, C2prime_comm l1 l2, mul_comm (C2prime l1 l2) (C1prime l1 l2),
    deltahprime_comm l1 l2,
    show -deltahprime l1 l2 * Real.pi / 360 = -(deltahprime l1 l2 * Real.pi / 360) by ring,
    Real.sin_neg]
  ring

theorem T_comm (l1 l2 : Lab) : T l2 l1 = T l1 l2 := by
  unfold T; rw [Hbarprime_comm]

theorem SL_comm (l1 l2 : Lab) : SL l2 l1 = SL l1 l2 := by
  unfold SL; rw [Lbarprime_comm]

theorem SC_comm (l1 l2 : Lab) : SC l2 l1 = SC l1 l2 := by
  unfold SC; rw [Cbarprime_comm]

theorem SH_comm (l1 l2 : Lab) : SH l2 l1 = SH l1 l2 := by
  unfold SH; rw [Cbarprime_comm, T_comm]

theorem deltaTheta_comm (l1 l2 : Lab) : deltaTheta l2 l1 = deltaTheta l1 l2 := by
  unfold deltaTheta; rw [Hbarprime_comm]

theorem RC_comm (l1 l2 : Lab) : RC l2 l1 = RC l1 l2 := by
  unfold RC; rw [Cbarprime_comm]

theorem RT_comm (l1 l2 : Lab) : RT l2 l1 = RT l1 l2 := by
  unfold RT; rw [RC_comm, deltaTheta_comm]

theorem deltaEArg_comm (l1 l2 : Lab) : deltaEArg l2 l1 = deltaEArg l1 l2 := by
  unfold deltaEArg
  rw [deltaLprime_comm l1 l2, deltaCprime_comm l1 l2, deltaHprime_comm l1 l2, RT_comm l1 l2,
    SL_comm l1 l2, SC_comm l1 l2, SH_comm l1 l2]
  ring

/-- C6: both distance functions are symmetric under swapping their two
arguments, `deltaE2000` included despite its sign-sensitive intermediate
quantities. -/
theorem deltaE_symm (x y : Lab) :
    deltaE76 x y = deltaE76 y x ∧ deltaE2000 x y = deltaE2000 y x := by
  constructor
  · rw [deltaE76_eq_dist, deltaE76_eq_dist, dist_comm]
  · unfold deltaE2000
    rw [deltaEArg_comm x y]

end ColorAlgorithms

namespace ColorAlgorithms

theorem chroma_nonneg (lab : Lab) : 0 ≤ chroma lab := Real.sqrt_nonneg _

theorem C1prime_nonneg (l1 l2 : Lab) : 0 ≤ C1prime l1 l2 := Real.sqrt_nonneg _

theorem C2prime_nonneg (l1 l2 : Lab) : 0 ≤ C2prime l1 l2 := Real.sqrt_nonneg _

theorem Cbarprime_nonneg (l1 l2 : Lab) : 0 ≤ Cbarprime l1 l2 := by
  unfold Cbarprime
  have := C1prime_nonneg l1 l2
  have := C2prime_nonneg l1 l2
  linarith

theorem pow7_add_pos {x : ℝ} (hx : 0 ≤ x) : 0 < x ^ 7 + 25 ^ 7 := by
  have h1 : (0:ℝ) < 25 ^ 7 := by norm_num
  have h2 : 0 ≤ x ^ 7 := pow_nonneg hx 7
  linarith

theorem SL_pos (l1 l2 : Lab) : 0 < SL l1 l2 := by
  unfold SL
  have h1 : 0 ≤ 0.015 * (Lbarprime l1 l2 - 50) ^ 2 / Real.sqrt (20 + (Lbarprime l1 l2 - 50) ^ 2) := by
    apply div_nonneg
    · positivity
    · exact Real.sqrt_nonneg _
  linarith

theorem SC_pos (l1 l2 : Lab) : 0 < SC l1 l2 := by
  unfold SC
  have := Cbarprime_nonneg l1 l2
  linarith

theorem T_ge (l1 l2 : Lab) : 0.07 ≤ T l1 l2 := by
  unfold T
  have c1 := Real.neg_one_le_cos ((Hbarprime l1 l2 - 30) * Real.pi / 180)
  have c2 := Real.cos_le_one (2 * Hbarprime l1 l2 * Real.pi / 180)
  have c2' := Real.neg_one_le_cos (2 * Hbarprime l1 l2 * Real.pi / 180)
  have c3 := Real.neg_one_le_cos ((3 * Hbarprime l1 l2 + 6) * Real.pi / 180)
  have c4 := Real.cos_le_one ((4 * Hbarprime l1 l2 - 63) * Real.pi / 180)
  have c1' := Real.cos_le_one ((Hbarprime l1 l2 - 30) * Real.pi / 180)
  have c3' := Real.cos_le_one ((3 * Hbarprime l1 l2 + 6) * Real.pi / 180)
  have c4' := Real.neg_one_le_cos ((4 * Hbarprime l1 l2 - 63) * Real.pi / 180)
  linarith

theorem SH_pos (l1 l2 : Lab) : 0 < SH l1 l2 := by
  unfold SH
  have h1 := Cbarprime_nonneg l1 l2
  have h2 := T_ge l1 l2
  have : 0 ≤ 0.015 * Cbarprime l1 l2 * T l1 l2 := by
    apply mul_nonneg
    · apply mul_nonneg (by norm_num) h1
    · linarith
  linarith

theorem RC_bounds (l1 l2 : Lab) : 0 ≤ RC l1 l2 ∧ RC l1 l2 ≤ 2 := by
  unfold RC
  constructor
  · positivity
  · have hr : Cbarprime l1 l2 ^ 7 / (Cbarprime l1 l2 ^ 7 + 25 ^ 7) ≤ 1 := by
      apply div_le_one_of_le₀
      · have : (0:ℝ) < 25 ^ 7 := by norm_num
        linarith
      · exact (pow7_add_pos (Cbarprime_nonneg l1 l2)).le
    have := Real.sqrt_le_one.mpr hr
    linarith

theorem RT_abs_le (l1 l2 : Lab) : |RT l1 l2| ≤ 2 := by
  unfold RT
  obtain ⟨hrc0, hrc2⟩ := RC_bounds l1 l2
  rw [neg_mul, abs_neg, abs_mul, abs_of_nonneg hrc0]
  calc RC l1 l2 * |Real.sin (2 * deltaTheta l1 l2 * Real.pi / 180)|
      ≤ 2 * 1 := by
        apply mul_le_mul hrc2 (Real.abs_sin_le_one _) (abs_nonneg _) (by norm_num)
    _ = 2 := by norm_num

theorem deltaEArg_nonneg (l1 l2 : Lab) : 0 ≤ deltaEArg l1 l2 := by
  unfold deltaEArg
  set A := deltaLprime l1 l2 / (kL * SL l1 l2) with hA
  set B := deltaCprime l1 l2 / (kC * SC l1 l2) with hB
  set C := deltaHprime l1 l2 / (kH * SH l1 l2) with hC
  have hRT := RT_abs_le l1 l2
  obtain ⟨h1, h2⟩ := abs_le.mp hRT
  rcases le_or_lt 0 (B * C) with hbc | hbc
  · have : RT l1 l2 * (B * C) ≥ -2 * (B * C) := by nlinarith
    have hsq := sq_nonneg (B - C)
    have hsA := sq_nonneg A
    nlinarith
  · have : RT l1 l2 * (B * C) ≥ 2 * (B * C) := by nlinarith
    have hsq := sq_nonneg (B + C)
    have hsA := sq_nonneg A
    nlinarith

/-- C9: `deltaE2000` is total: every divisor in the formula is strictly
positive (with `T ≥ 0.07` keeping `SH` positive), `|RT| ≤ 2` keeps the
final square root's argument nonnegative, and the result is a
nonnegative real. -/
theorem deltaE2000_total_nonneg (l1 l2 : Lab) :
    0 < Cab l1 l2 ^ 7 + 25 ^ 7 ∧
    0 < Cbarprime l1 l2 ^ 7 + 25 ^ 7 ∧
    0 < kL * SL l1 l2 ∧
    0 < kC * SC l1 l2 ∧
    0 < kH * SH l1 l2 ∧
    0.07 ≤ T l1 l2 ∧
    |RT l1 l2| ≤ 2 ∧
    0 ≤ deltaEArg l1 l2 ∧
    0 ≤ deltaE2000 l1 l2 := by
  have hCab : 0 ≤ Cab l1 l2 := by
    unfold Cab
    have := chroma_nonneg l1
    have := chroma_nonneg l2
    linarith
  refine ⟨pow7_add_pos hCab, pow7_add_pos (Cbarprime_nonneg l1 l2), ?_, ?_, ?_,
    T_ge l1 l2, RT_abs_le l1 l2, deltaEArg_nonneg l1 l2, Real.sqrt_nonneg _⟩
  · simpa [kL] using SL_pos l1 l2
  · simpa [kC] using SC_pos l1 l2
  · simpa [kH] using SH_pos l1 l2

end ColorAlgorithms

namespace ColorAlgorithms

/-- C3: `rgbToLab` equals the spec's reference pipeline — channel
normalization by 255, the inverse sRGB gamma with branch at 0.04045, the
D65 matrix with the nine stated coefficients, white-point division then
scaling by 100, the Lab nonlinearity with branch at 0.008856, and the
`L`, `a`, `b` emission, with no rounding. -/
theorem rgbToLab_eq_specModel (r g b : ℝ) :
    rgbToLab r g b = SpecModel.rgbToLab r g b := by
  have hg : SpecModel.invGamma = toLinear := rfl
  have hn : SpecModel.labNonlin = labTransform := rfl
  simp only [rgbToLab, SpecModel.rgbToLab, hg, hn]
  have e1 : ∀ a b c : ℝ,
      (a * 0.4124564 + b * 0.3575761 + c * 0.1804375) * 100 / 95.047 =
      (0.4124564 * a + 0.3575761 * b + 0.1804375 * c) / 95.047 * 100 := by
    intros; ring
  have e2 : ∀ a b c : ℝ,
      (a * 0.2126729 + b * 0.7151522 + c * 0.0721750) * 100 / 100.000 =
      (0.2126729 * a + 0.7151522 * b + 0.0721750 * c) / 100.0 * 100 := by
    intros; ring
  have e3 : ∀ a b c : ℝ,
      (a * 0.0193339 + b * 0.1191920 + c * 0.9503041) * 100 / 108.883 =
      (0.0193339 * a + 0.1191920 * b + 0.9503041 * c) / 108.883 * 100 := by
    intros; ring
  rw [e1 (toLinear (r / 255)) (toLinear (g / 255)) (toLinear (b / 255)),
    e2 (toLinear (r / 255)) (toLinear (g / 255)) (toLinear (b / 255)),
    e3 (toLinear (r / 255)) (toLinear (g / 255)) (toLinear (b / 255))]

end ColorAlgorithms

namespace SpecModel

open ColorAlgorithms

theorem atan2_deg_bounds (y x : ℝ) :
    -180 < JS.atan2 y x * 180 / Real.pi ∧ JS.atan2 y x * 180 / Real.pi ≤ 180 := by
  have hlo := Complex.neg_pi_lt_arg ⟨x, y⟩
  have hhi := Complex.arg_le_pi ⟨x, y⟩
  have hpi := Real.pi_pos
  unfold JS.atan2
  constructor
  · rw [lt_div_iff₀ hpi]
    nlinarith
  · rw [div_le_iff₀ hpi]
    nlinarith

theorem fmod_eq_normDeg {θ : ℝ} (hlo : -180 < θ) (hhi : θ ≤ 180) :
    JS.fmod (θ + 360) 360 = normDeg θ := by
  unfold JS.fmod JS.trunc normDeg
  have hpos : 0 ≤ (θ + 360) / 360 := by
    apply div_nonneg (by linarith) (by norm_num)
  rw [if_pos hpos]
  by_cases hθ : θ < 0
  · have hfl : ⌊(θ + 360) / 360⌋ = 0 := by
      rw [Int.floor_eq_iff]
      constructor
      · simpa using hpos
      · rw [div_lt_iff₀ (by norm_num : (0:ℝ) < 360)]
        push_cast
        linarith
    rw [hfl, if_pos hθ]
    push_cast
    ring
  · have hfl : ⌊(θ + 360) / 360⌋ = 1 := by
      rw [Int.floor_eq_iff]
      constructor
      · rw [le_div_iff₀ (by norm_num : (0:ℝ) < 360)]
        push_cast
        linarith
      · rw [div_lt_iff₀ (by norm_num : (0:ℝ) < 360)]
        push_cast
        linarith
    rw [hfl, if_neg hθ]
    push_cast
    ring

theorem specChroma_eq (lab : Lab) : specChroma lab = chroma lab := by
  unfold specChroma chroma
  congr 1
  ring

theorem specCab_eq (l1 l2 : Lab) : specCab l1 l2 = Cab l1 l2 := by
  unfold specCab Cab
  rw [specChroma_eq, specChroma_eq]

theorem specG_eq (l1 l2 : Lab) : specG l1 l2 = G l1 l2 := by
  unfold specG G
  rw [specCab_eq]

theorem specA1prime_eq (l1 l2 : Lab) : specA1prime l1 l2 = a1prime l1 l2 := by
  unfold specA1prime a1prime
  rw [specG_eq]

theorem specA2prime_eq (l1 l2 : Lab) : specA2prime l1 l2 = a2prime l1 l2 := by
  unfold specA2prime a2prime
  rw [specG_eq]

theorem specC1prime_eq (l1 l2 : Lab) : specC1prime l1 l2 = C1prime l1 l2 := by
  unfold specC1prime C1prime
  rw [specA1prime_eq]
  congr 1
  ring

theorem specC2prime_eq (l1 l2 : Lab) : specC2prime l1 l2 = C2prime l1 l2 := by
  unfold specC2prime C2prime
  rw [specA2prime_eq]
  congr 1
  ring

theorem specH1prime_eq (l1 l2 : Lab) : specH1prime l1 l2 = h1prime l1 l2 := by
  unfold specH1prime h1prime
  rw [specA1prime_eq]
  obtain ⟨hlo, hhi⟩ := atan2_deg_bounds l1.b (a1prime l1 l2)
  rw [fmod_eq_normDeg hlo hhi]

theorem specH2prime_eq (l1 l2 : Lab) : specH2prime l1 l2 = h2prime l1 l2 := by
  unfold specH2prime h2prime
  rw [specA2prime_eq]
  obtain ⟨hlo, hhi⟩ := atan2_deg_bounds l2.b (a2prime l1 l2)
  rw [fmod_eq_normDeg hlo hhi]

theorem specDeltaLprime_eq (l1 l2 : Lab) : specDeltaLprime l1 l2 = deltaLprime l1 l2 := rfl

theorem specDeltaCprime_eq (l1 l2 : Lab) : specDeltaCprime l1 l2 = deltaCprime l1 l2 := by
  unfold specDeltaCprime deltaCprime
  rw [specC1prime_eq, specC2prime_eq]

theorem specDeltahprime_eq (l1 l2 : Lab) : specDeltahprime l1 l2 = deltahprime l1 l2 := by
  unfold specDeltahprime deltahprime
  rw [specC1prime_eq, specC2prime_eq, specH1prime_eq, specH2prime_eq]
  simp only [mul_eq_zero]

theorem specHbarprime_eq (l1 l2 : Lab) : specHbarprime l1 l2 = Hbarprime l1 l2 := by
  unfold specHbarprime Hbarprime
  rw [specC1prime_eq, specC2prime_eq, specH1prime_eq, specH2prime_eq]
  simp only [mul_eq_zero]

theorem specDeltaHprime_eq (l1 l2 : Lab) : specDeltaHprime l1 l2 = deltaHprime l1 l2 := by
  unfold specDeltaHprime deltaHprime
  rw [specC1prime_eq, specC2prime_eq, specDeltahprime_eq]

theorem specCbarprime_eq (l1 l2 : Lab) : specCbarprime l1 l2 = Cbarprime l1 l2 := by
  unfold specCbarprime Cbarprime
  rw [specC1prime_eq, specC2prime_eq]

theorem specT_eq (l1 l2 : Lab) : specT l1 l2 = T l1 l2 := by
  unfold specT T
  rw [specHbarprime_eq]

theorem specSL_eq (l1 l2 : Lab) : specSL l1 l2 = SL l1 l2 := by
  unfold specSL SL specLbarprime Lbarprime
  rfl

theorem specSC_eq (l1 l2 : Lab) : specSC l1 l2 = SC l1 l2 := by
  unfold specSC SC
  rw [specCbarprime_eq]

theorem specSH_eq (l1 l2 : Lab) : specSH l1 l2 = SH l1 l2 := by
  unfold specSH SH
  rw [specCbarprime_eq, specT_eq]

theorem specDeltaTheta_eq (l1 l2 : Lab) : specDeltaTheta l1 l2 = deltaTheta l1 l2 := by
  unfold specDeltaTheta deltaTheta
  rw [specHbarprime_eq]

theorem specRC_eq (l1 l2 : Lab) : specRC l1 l2 = RC l1 l2 := by
  unfold specRC RC
  rw [specCbarprime_eq]

theorem specRT_eq (l1 l2 : Lab) : specRT l1 l2 = RT l1 l2 := by
  unfold specRT RT
  rw [specRC_eq, specDeltaTheta_eq]

end SpecModel

namespace ColorAlgorithms

/-- C1: `deltaE2000` equals the CIEDE2000 value defined by the spec's 13
steps with `kL = kC = kH = 1`, including the hue angles normalized into
`[0, 360)`, the zero-chroma branches of `Δh′` and `H̄′`, and the final
weighted square root with the `RT` cross term. -/
theorem deltaE2000_eq_specModel (lab1 lab2 : Lab) :
    deltaE2000 lab1 lab2 = SpecModel.deltaE2000 lab1 lab2 := by
  unfold deltaE2000 SpecModel.deltaE2000 deltaEArg
  rw [SpecModel.specDeltaLprime_eq, SpecModel.specDeltaCprime_eq,
    SpecModel.specDeltaHprime_eq, SpecModel.specRT_eq,
    SpecModel.specSL_eq, SpecModel.specSC_eq, SpecModel.specSH_eq]
  simp only [kL, kC, kH]

end ColorAlgorithms

namespace ColorAlgorithms

theorem matchLE_trans : ∀ a b c : MatchResult,
    matchLE a b → matchLE b c → matchLE a c := by
  intro a b c hab hbc
  simp only [matchLE, decide_eq_true_eq] at *
  exact le_trans hab hbc

theorem matchLE_total : ∀ a b : MatchResult, matchLE a b || matchLE b a := by
  intro a b
  simp only [matchLE]
  rcases le_total a.deltaE b.deltaE with h | h <;> simp [h]

/-- C2: the matching step maps every palette entry to a distance, sorts
stably ascending by distance, and truncates to `MAX_RESULTS = 10`: the
result has length `min 10 n`, is sorted ascending by `deltaE`, is the
10-prefix of the stable sort of the annotated palette (so equal-distance
entries keep their original order: any equal-distance subsequence of the
input survives into the sorted output), and an empty palette yields `[]`
rather than an error.  The palette itself is a borrowed immutable value
in this embedding, so it is never mutated. -/
theorem findMatches_spec (inputLab : Lab) (colors : List ReferenceColor) :
    (findMatches inputLab colors).length = min MAX_RESULTS colors.length ∧
    (findMatches inputLab colors).Pairwise (fun a b => a.deltaE ≤ b.deltaE) ∧
    findMatches inputLab colors =
      ((colors.map (augmentColor inputLab)).mergeSort matchLE).take MAX_RESULTS ∧
    (∀ l' : List MatchResult,
        l'.Pairwise (fun a b => a.deltaE = b.deltaE) →
        List.Sublist l' (colors.map (augmentColor inputLab)) →
        List.Sublist l' ((colors.map (augmentColor inputLab)).mergeSort matchLE)) ∧
    findMatches inputLab [] = [] := by
  refine ⟨?_, ?_, rfl, ?_, by simp [findMatches]⟩
  · simp [findMatches]
  · have hsorted := List.sorted_mergeSort matchLE_trans matchLE_total
      (colors.map (augmentColor inputLab))
    have hsorted' : ((colors.map (augmentColor inputLab)).mergeSort matchLE).Pairwise
        (fun a b => a.deltaE ≤ b.deltaE) :=
      hsorted.imp (fun h => by simpa [matchLE, decide_eq_true_eq] using h)
    exact hsorted'.sublist (List.take_sublist _ _)
  · intro l' hpw hsub
    apply List.sublist_mergeSort matchLE_trans matchLE_total ?_ hsub
    exact hpw.imp (fun h => by simp [matchLE]; exact le_of_eq h)

/-- Witness for C2: the stability guarantee applied at a concrete
two-entry palette whose entries are at equal distance from the query. -/
theorem findMatches_spec_witness :
    ([augmentColor ⟨0, 0, 0⟩ sampleColor, augmentColor ⟨0, 0, 0⟩ sampleColor].Pairwise
        (fun a b => a.deltaE = b.deltaE)) ∧
    List.Sublist [augmentColor ⟨0, 0, 0⟩ sampleColor, augmentColor ⟨0, 0, 0⟩ sampleColor]
      ([sampleColor, sampleColor].map (augmentColor ⟨0, 0, 0⟩)) ∧
    List.Sublist [augmentColor ⟨0, 0, 0⟩ sampleColor, augmentColor ⟨0, 0, 0⟩ sampleColor]
      (([sampleColor, sampleColor].map (augmentColor ⟨0, 0, 0⟩)).mergeSort matchLE) := by
  have hpw : ([augmentColor ⟨0, 0, 0⟩ sampleColor,
      augmentColor ⟨0, 0, 0⟩ sampleColor].Pairwise (fun a b => a.deltaE = b.deltaE)) := by
    simp [List.pairwise_cons]
  have hsub : List.Sublist
      [augmentColor ⟨0, 0, 0⟩ sampleColor, augmentColor ⟨0, 0, 0⟩ sampleColor]
      ([sampleColor, sampleColor].map (augmentColor ⟨0, 0, 0⟩)) := by
    simp
  exact ⟨hpw, hsub,
    (findMatches_spec ⟨0, 0, 0⟩ [sampleColor, sampleColor]).2.2.2.1 _ hpw hsub⟩

end ColorAlgorithms
